import Mathlib

/-!
Verification of the Ockam TCP receive processor
(`ockam_transport_tcp/src/workers/receiver.rs`, `TcpRecvProcessor::process`)
and of the credential retrieval flow
(`ockam_api/src/nodes/service/credentials.rs`, `NodeManager::get_credential_impl`)
against their natural-language specification.

The Rust code is shallowly embedded: each fallible external call (stream
reads, message decoding, TCP session and secure-channel establishment,
credential request and verification) is represented by an explicit input
describing its outcome, and the side effects of an execution (messages sent
to the paired sender, messages forwarded to the router, actions performed
against external collaborators) are collected explicitly.
-/

namespace OckamModel

/-! ## TCP receiver data model -/

/-- A logical worker address (`ockam_core::Address`), opaque here. -/
abbrev Address := String

/-- A session correlation identifier (`ockam_core::sessions::SessionId`), opaque. -/
abbrev SessionId := Nat

/-- The address set of one TCP connection worker pair
(`ockam_transport_tcp::workers::Addresses`). -/
structure Addresses where
  sender_address : Address
  sender_internal_address : Address
  receiver_address : Address
deriving DecidableEq

/-- A route: an ordered list of hop addresses (`ockam_core::Route`). -/
structure Route where
  addrs : List Address
deriving DecidableEq

/-- A decoded transport message (`ockam_core::TransportMessage`):
onward route, return route and an opaque payload. -/
structure TransportMessage where
  onward_route : Route
  return_route : Route
  payload : List Nat
deriving DecidableEq

/-- Control messages sent from the receiver to the paired sender's internal
address (`TcpSendWorkerMsg`). Only `ConnectionClosed` is used by the receiver. -/
inductive TcpSendWorkerMsg where
  | connectionClosed
deriving DecidableEq

/-- A message handed to the router (`ockam_core::LocalMessage`): the transport
message plus local metadata (here: the list of attached session identifiers,
built from `SessionIdLocalInfo`). -/
structure LocalMessage where
  transport : TransportMessage
  local_info : List SessionId
deriving DecidableEq

/-- The outcome of one iteration's interaction with the TCP read half:
either the 2-byte length read fails (`lenErr`), or it yields `len` but the
subsequent `read_exact` of the payload fails (`payloadErr`), or both reads
succeed and deliver the payload bytes (`frame`). -/
inductive StreamRead where
  | lenErr
  | payloadErr (len : Nat)
  | frame (len : Nat) (buf : List Nat)
deriving DecidableEq

/-- Return value of `TcpRecvProcessor::process`: `Ok(bool)` (continue flag) or
`Err(TransportError::RecvBadMessage)`. -/
inductive ProcessResult where
  | ok (cont : Bool)
  | recvBadMessage
deriving DecidableEq

/-- Side effects of running the receiver: control messages sent
(address, message) via `ctx.send`, and messages forwarded via `ctx.forward`,
each in emission order. -/
structure Effects where
  sends : List (Address × TcpSendWorkerMsg)
  forwards : List LocalMessage
deriving DecidableEq

/-- No side effects. -/
def Effects.empty : Effects := ⟨[], []⟩

/-- Concatenation of side effects, preserving order. -/
def Effects.append (a b : Effects) : Effects :=
  ⟨a.sends ++ b.sends, a.forwards ++ b.forwards⟩

/-- One iteration of `TcpRecvProcessor::process` (receiver.rs, lines 101-164).

* `read_u16` failure: log, send `ConnectionClosed` to the sender's internal
  address, return `Ok(false)`.
* `read_exact` failure: log, return `Ok(true)` with no effects.
* decode failure: return `Err(TransportError::RecvBadMessage)`.
* empty onward route (heartbeat): return `Ok(true)` with no effects.
* otherwise: prepend the sender address to the return route, attach the bound
  session identifier as local metadata when one exists, forward, return
  `Ok(true)`.

`decode` stands for `TransportMessage::decode` over the payload bytes. -/
def process (decode : List Nat → Option TransportMessage)
    (addresses : Addresses) (session_id : Option SessionId)
    (input : StreamRead) : ProcessResult × Effects :=
  match input with
  | .lenErr =>
      (.ok false, ⟨[(addresses.sender_internal_address, .connectionClosed)], []⟩)
  | .payloadErr _ =>
      (.ok true, Effects.empty)
  | .frame _ buf =>
      match decode buf with
      | none => (.recvBadMessage, Effects.empty)
      | some msg =>
          if msg.onward_route.addrs.isEmpty then
            (.ok true, Effects.empty)
          else
            let msg' : TransportMessage :=
              { msg with return_route := ⟨addresses.sender_address :: msg.return_route.addrs⟩ }
            let local_info : List SessionId :=
              match session_id with
              | some sid => [sid]
              | none => []
            (.ok true, ⟨[], [⟨msg', local_info⟩]⟩)

/-- Modelled from the spec: the processor relay loop of `ockam_node` that
drives `process` is not part of the sampled source. Per the spec (§4.1,
receive loop): an `Err` from an iteration is reported and the loop continues
with the next length prefix; `Ok(false)` terminates the loop; `Ok(true)`
continues. `runLoop` executes the iterations over a finite list of stream
outcomes, accumulating effects; the boolean records whether the loop
terminated by itself (reached an `Ok(false)` iteration). -/
def runLoop (decode : List Nat → Option TransportMessage)
    (addresses : Addresses) (session_id : Option SessionId) :
    List StreamRead → Effects × Bool
  | [] => (Effects.empty, false)
  | input :: rest =>
      let step := process decode addresses session_id input
      match step.1 with
      | .ok false => (step.2, true)
      | .ok true =>
          let tail := runLoop decode addresses session_id rest
          (step.2.append tail.1, tail.2)
      | .recvBadMessage =>
          let tail := runLoop decode addresses session_id rest
          (step.2.append tail.1, tail.2)

/-- Written after the spec's words (for comparison with `process`): the one
message the receiver is expected to forward for a given stream outcome —
`some` exactly when the frame decodes to a message with a non-empty onward
route, carrying the sender address prepended to the return route and the
bound session identifier as metadata when one exists. -/
def specForward (decode : List Nat → Option TransportMessage)
    (addresses : Addresses) (session_id : Option SessionId) :
    StreamRead → Option LocalMessage
  | .frame _ buf =>
      match decode buf with
      | none => none
      | some msg =>
          if msg.onward_route.addrs.isEmpty then none
          else
            some ⟨{ msg with
                      return_route := ⟨addresses.sender_address :: msg.return_route.addrs⟩ },
                  match session_id with
                  | some sid => [sid]
                  | none => []⟩
  | _ => none

/-! ## Credential retrieval data model
(`ockam_api/src/nodes/service/credentials.rs`, `NodeManager::get_credential_impl`) -/

/-- An identity identifier (`IdentityIdentifier`), opaque. -/
abbrev Identifier := Nat

/-- A credential (`ockam_identity::credential::Credential`), opaque. -/
abbrev Credential := Nat

/-- A public identity (`PublicIdentity`), reduced to its identifier. -/
structure PublicIdentity where
  identifier : Identifier
deriving DecidableEq

/-- One configured authority: its address (`MultiAddr`, opaque) and its
identity (as in `AuthorityInfo`: `authority.addr`, `authority.identity`). -/
structure Authority where
  addr : Nat
  identity : PublicIdentity
deriving DecidableEq

/-- Modelled from the spec: the authorities configuration type
(`AuthoritiesConfig`, returned by `NodeManager::authorities`) is not under
the sampled source. Per the spec, the credential is verified "against the set
of known authorities", so `public_identities` yields the public identities of
all configured authorities, in configuration order. -/
def public_identities (authorities : List Authority) : List PublicIdentity :=
  authorities.map (·.identity)

/-- API errors (`ockam_api::error::ApiError`): either a generic error built
from a message (`ApiError::generic`), or an error propagated from a callee
via `?`, kept opaque. -/
inductive ApiError where
  | generic (msg : String)
  | propagated (code : Nat)
deriving DecidableEq

/-- Result of `create_tcp_session`: a route (opaque) and an optional session
identifier. -/
structure TcpSession where
  route : Nat
  session : Option SessionId
deriving DecidableEq

/-- Outcomes of the external calls made by `get_credential_impl`, fixed for
one run: `self.authorities()`, `create_tcp_session`,
`create_secure_channel_internal` (yielding the channel address),
`RpcClient::new` plus `client.credential()` (merged: either yields the
received credential), and `identity.verify_self_credential`. -/
structure Env where
  authoritiesRes : Except ApiError (List Authority)
  tcpSession : Option TcpSession
  secureChannelRes : Except ApiError Address
  clientRes : Except ApiError Credential
  verifyRes : Except ApiError Unit

/-- The externally observable actions of `get_credential_impl`, in the order
the corresponding calls are made. -/
inductive Action where
  | lookupAuthorities
  | createTcpSession (addr : Nat)
  | createSecureChannel (allowed : List Identifier) (session : Option SessionId)
  | requestCredential
  | verifyCredential (cred : Credential) (issuers : List PublicIdentity)
  | setCredential (cred : Credential)
deriving DecidableEq

/-- `NodeManager::get_credential_impl` (credentials.rs, lines 23-89).
Input: the outcomes of the external calls, the identity's current credential
(`identity.credential()`), and the `overwrite` flag. Output: the returned
`Result`, the trace of performed actions, and the identity's credential
after the call (`set_credential` replaces it; every other path leaves it
unchanged).

Control flow, following the source line by line:
1. if a credential exists and `overwrite` is false, fail "credential already
   exists" before any other call;
2. `self.authorities()?`, then take the first authority or fail
   "No known Authority";
3. `allowed` is the one-element list holding the first authority's identifier;
4. `create_tcp_session`, failing with "invalid authority route" on `None`;
5. `create_secure_channel_internal(identity, route, Some(allowed), None,
   session)?`;
6. `self.authorities()?` again (borrow checker), same outcome;
7. build the `CredentialIssuerClient` and request a credential (`?`);
8. `verify_self_credential(&credential, authorities.public_identities())?`;
9. `set_credential(credential)`, return `Ok(())`. -/
def get_credential_impl (env : Env) (identity_credential : Option Credential)
    (overwrite : Bool) :
    Except ApiError Unit × List Action × Option Credential :=
  if identity_credential.isSome && !overwrite then
    (.error (.generic "credential already exists"), [], identity_credential)
  else
    match env.authoritiesRes with
    | .error e => (.error e, [.lookupAuthorities], identity_credential)
    | .ok authorities =>
      match authorities.head? with
      | none =>
          (.error (.generic "No known Authority"), [.lookupAuthorities],
           identity_credential)
      | some authority =>
        let allowed := [authority.identity.identifier]
        match env.tcpSession with
        | none =>
            (.error (.generic "invalid authority route"),
             [.lookupAuthorities, .createTcpSession authority.addr],
             identity_credential)
        | some ts =>
          match env.secureChannelRes with
          | .error e =>
              (.error e,
               [.lookupAuthorities, .createTcpSession authority.addr,
                .createSecureChannel allowed ts.session],
               identity_credential)
          | .ok _sc =>
            match env.authoritiesRes with
            | .error e =>
                (.error e,
                 [.lookupAuthorities, .createTcpSession authority.addr,
                  .createSecureChannel allowed ts.session, .lookupAuthorities],
                 identity_credential)
            | .ok authorities2 =>
              match env.clientRes with
              | .error e =>
                  (.error e,
                   [.lookupAuthorities, .createTcpSession authority.addr,
                    .createSecureChannel allowed ts.session, .lookupAuthorities,
                    .requestCredential],
                   identity_credential)
              | .ok credential =>
                match env.verifyRes with
                | .error e =>
                    (.error e,
                     [.lookupAuthorities, .createTcpSession authority.addr,
                      .createSecureChannel allowed ts.session, .lookupAuthorities,
                      .requestCredential,
                      .verifyCredential credential (public_identities authorities2)],
                     identity_credential)
                | .ok _ =>
                    (.ok (),
                     [.lookupAuthorities, .createTcpSession authority.addr,
                      .createSecureChannel allowed ts.session, .lookupAuthorities,
                      .requestCredential,
                      .verifyCredential credential (public_identities authorities2),
                      .setCredential credential],
                     some credential)

/-- Whether an action is the `set_credential` mutation. -/
def Action.isSetCredential : Action → Bool
  | .setCredential _ => true
  | _ => false

/-- Whether an action is a `verify_self_credential` call. -/
def Action.isVerifyCredential : Action → Bool
  | .verifyCredential _ _ => true
  | _ => false

/-- `true` iff no `setCredential` action occurs before the first
`verifyCredential` action of the trace. -/
def noSetBeforeVerify : List Action → Bool
  | [] => true
  | .setCredential _ :: _ => false
  | .verifyCredential _ _ :: _ => true
  | _ :: rest => noSetBeforeVerify rest

/-! ## Concrete instances used by witnesses -/

/-- A concrete address set for a connection worker pair. -/
def addrs0 : Addresses := ⟨"tcp_sender", "tcp_sender_internal", "tcp_receiver"⟩

/-- A decoder that fails on every payload. -/
def decodeNone : List Nat → Option TransportMessage := fun _ => none

/-- A message with an empty onward route (a heartbeat). -/
def heartbeatMsg : TransportMessage := ⟨⟨[]⟩, ⟨[]⟩, []⟩

/-- A decoder that yields a heartbeat for every payload. -/
def decodeHeartbeat : List Nat → Option TransportMessage := fun _ => some heartbeatMsg

/-- A decoder that yields a routable message carrying the payload. -/
def decodeEcho : List Nat → Option TransportMessage :=
  fun buf => some ⟨⟨["next_hop"]⟩, ⟨["origin"]⟩, buf⟩

/-- A concrete first authority. -/
def authA : Authority := ⟨10, ⟨1⟩⟩

/-- A concrete second authority. -/
def authB : Authority := ⟨20, ⟨2⟩⟩

/-- A concrete TCP session to the authority. -/
def tsX : TcpSession := ⟨99, some 4⟩

/-- A run in which everything up to credential verification succeeds and the
verification itself fails. -/
def envVerifyFail : Env :=
  ⟨.ok [authA, authB], some tsX, .ok "sc_addr", .ok 42, .error (.propagated 3)⟩

/-- A run with two configured authorities in which every step succeeds. -/
def envTwoAuthorities : Env :=
  ⟨.ok [authA, authB], some tsX, .ok "sc_addr", .ok 42, .ok ()⟩

/-! ## Theorems about the receiver -/

/-- Appending after no effects is the identity. -/
theorem Effects.empty_append (e : Effects) : Effects.empty.append e = e := rfl

/-- C3: when the read of the 2-byte length prefix fails, `process` sends the
`ConnectionClosed` control message to the paired sender's internal address,
forwards nothing, and returns `Ok(false)`; the receive loop terminates there,
processing none of the remaining stream. -/
theorem process_len_read_failure_closes (decode : List Nat → Option TransportMessage)
    (addresses : Addresses) (session_id : Option SessionId) (rest : List StreamRead) :
    process decode addresses session_id .lenErr =
      (.ok false, ⟨[(addresses.sender_internal_address, .connectionClosed)], []⟩)
    ∧ runLoop decode addresses session_id (.lenErr :: rest) =
      (⟨[(addresses.sender_internal_address, .connectionClosed)], []⟩, true) :=
  ⟨rfl, rfl⟩

/-- C6: when reading the announced payload bytes fails after a successful
length read, `process` logs, drops the message and returns `Ok(true)` with no
send and no forward; the loop continues over the rest of the stream with the
connection still open. -/
theorem process_payload_read_failure_soft (decode : List Nat → Option TransportMessage)
    (addresses : Addresses) (session_id : Option SessionId) (len : Nat)
    (rest : List StreamRead) :
    process decode addresses session_id (.payloadErr len) = (.ok true, Effects.empty)
    ∧ runLoop decode addresses session_id (.payloadErr len :: rest) =
        runLoop decode addresses session_id rest :=
  ⟨rfl, rfl⟩

/-- C4: a frame whose payload decodes to a message with an empty onward route
(a heartbeat) is discarded: `process` returns `Ok(true)` with no send and no
forward, and the loop continues unchanged over the rest of the stream. -/
theorem process_heartbeat_discarded (decode : List Nat → Option TransportMessage)
    (addresses : Addresses) (session_id : Option SessionId) (len : Nat)
    (buf : List Nat) (msg : TransportMessage) (rest : List StreamRead)
    (hdec : decode buf = some msg) (hroute : msg.onward_route.addrs = []) :
    process decode addresses session_id (.frame len buf) = (.ok true, Effects.empty)
    ∧ runLoop decode addresses session_id (.frame len buf :: rest) =
        runLoop decode addresses session_id rest := by
  have hp : process decode addresses session_id (.frame len buf) = (.ok true, Effects.empty) := by
    simp [process, hdec, hroute]
  refine ⟨hp, ?_⟩
  simp only [runLoop, hp]
  rfl

/-- Witness for C4 at a concrete input: a decoder always yielding the
heartbeat message, evaluated on a concrete frame. -/
theorem process_heartbeat_discarded_witness :
    process decodeHeartbeat addrs0 (some 5) (.frame 0 []) = (.ok true, Effects.empty)
    ∧ runLoop decodeHeartbeat addrs0 (some 5) [.frame 0 [], .payloadErr 3] =
        runLoop decodeHeartbeat addrs0 (some 5) [.payloadErr 3] :=
  process_heartbeat_discarded decodeHeartbeat addrs0 (some 5) 0 [] heartbeatMsg
    [.payloadErr 3] rfl rfl

/-- C5: a frame whose payload fails to decode makes `process` return the
`RecvBadMessage` error with no send and no forward, and (per the modelled
relay loop) the receiver continues with the rest of the stream: the
connection survives. -/
theorem process_decode_failure_continues (decode : List Nat → Option TransportMessage)
    (addresses : Addresses) (session_id : Option SessionId) (len : Nat)
    (buf : List Nat) (rest : List StreamRead)
    (hdec : decode buf = none) :
    process decode addresses session_id (.frame len buf) = (.recvBadMessage, Effects.empty)
    ∧ runLoop decode addresses session_id (.frame len buf :: rest) =
        runLoop decode addresses session_id rest := by
  have hp : process decode addresses session_id (.frame len buf) =
      (.recvBadMessage, Effects.empty) := by
    simp [process, hdec]
  refine ⟨hp, ?_⟩
  simp only [runLoop, hp]
  rfl

/-- Witness for C5 at a concrete input: the always-failing decoder on a
concrete frame, with a further frame left in the stream. -/
theorem process_decode_failure_continues_witness :
    process decodeNone addrs0 none (.frame 2 [7, 7]) = (.recvBadMessage, Effects.empty)
    ∧ runLoop decodeNone addrs0 none [.frame 2 [7, 7], .payloadErr 3] =
        runLoop decodeNone addrs0 none [.payloadErr 3] :=
  process_decode_failure_continues decodeNone addrs0 none 2 [7, 7] [.payloadErr 3] rfl

/-- C2: over any stretch of the stream in which the length reads succeed, the
receiver forwards exactly one message per frame whose payload decodes to a
message with a non-empty onward route, in the order the frames were received,
each carrying the sender address prepended to its return route and the bound
session identifier as metadata exactly when one exists — the forwarded
sequence is the `filterMap` of the spec-side per-frame forward. -/
theorem receiver_forwards_exactly_in_order (decode : List Nat → Option TransportMessage)
    (addresses : Addresses) (session_id : Option SessionId)
    (inputs : List StreamRead) (h : StreamRead.lenErr ∉ inputs) :
    (runLoop decode addresses session_id inputs).1.forwards =
      inputs.filterMap (specForward decode addresses session_id) := by
  induction inputs with
  | nil => rfl
  | cons i rest ih =>
    have hi : i ≠ StreamRead.lenErr := fun he => h (he ▸ List.mem_cons_self i rest)
    have hrest : StreamRead.lenErr ∉ rest := fun hm => h (List.mem_cons_of_mem _ hm)
    have ih' := ih hrest
    cases i with
    | lenErr => exact absurd rfl hi
    | payloadErr len =>
        simpa [runLoop, process, specForward, Effects.append] using ih'
    | frame len buf =>
        cases hdec : decode buf with
        | none =>
            simpa [runLoop, process, specForward, hdec, Effects.append] using ih'
        | some msg =>
            by_cases hr : msg.onward_route.addrs.isEmpty
            · simpa [runLoop, process, specForward, hdec, hr, Effects.append] using ih'
            · simp [runLoop, process, specForward, hdec, hr, Effects.append, ih']

/-- Witness for C2 at a concrete input: two frames decoded by `decodeEcho`
with a session identifier bound; both are forwarded in order, with the
sender address prepended and the session identifier attached. -/
theorem receiver_forwards_exactly_in_order_witness :
    (runLoop decodeEcho addrs0 (some 5) [.frame 1 [1], .frame 1 [2]]).1.forwards =
      [⟨⟨⟨["next_hop"]⟩, ⟨["tcp_sender", "origin"]⟩, [1]⟩, [5]⟩,
       ⟨⟨⟨["next_hop"]⟩, ⟨["tcp_sender", "origin"]⟩, [2]⟩, [5]⟩] :=
  (receiver_forwards_exactly_in_order decodeEcho addrs0 (some 5)
      [.frame 1 [1], .frame 1 [2]] (by decide)).trans (by decide)

/-- C7 counterexample: on the input modelling a frame that announces a
10-byte payload of which the stream delivers only a part before erroring,
`process` returns `Ok(true)` — not a `TransportClosed` report — sends nothing
to the paired sender (no close notification) and forwards nothing, so the
claimed notification does not happen on this path. -/
theorem payload_short_read_no_notification :
    (process decodeNone addrs0 none (.payloadErr 10)).1 = .ok true
    ∧ (process decodeNone addrs0 none (.payloadErr 10)).2.sends = []
    ∧ (process decodeNone addrs0 none (.payloadErr 10)).2.forwards = [] :=
  ⟨rfl, rfl, rfl⟩

/-- C7 amended: a frame announcing a 10-byte payload whose body read fails is
a soft failure — the message is dropped, nothing is sent or forwarded, and
the loop continues (`Ok(true)`); if the stream failure persists, the next
length-prefix read fails, and only then is the paired sender notified of the
closure and the loop terminated; no message is forwarded in either
iteration. -/
theorem payload_short_read_then_close (decode : List Nat → Option TransportMessage)
    (addresses : Addresses) (session_id : Option SessionId) :
    process decode addresses session_id (.payloadErr 10) = (.ok true, Effects.empty)
    ∧ runLoop decode addresses session_id [.payloadErr 10, .lenErr] =
        (⟨[(addresses.sender_internal_address, .connectionClosed)], []⟩, true) :=
  ⟨rfl, rfl⟩

/-- C8: whenever the receive loop terminates of its own accord, the very last
control message the receiver sent is the `ConnectionClosed` notification to
the paired sender's internal address — the notification is issued on every
path that ends the loop, at the terminating iteration. -/
theorem runLoop_termination_notifies_sender (decode : List Nat → Option TransportMessage)
    (addresses : Addresses) (session_id : Option SessionId)
    (inputs : List StreamRead)
    (h : (runLoop decode addresses session_id inputs).2 = true) :
    (runLoop decode addresses session_id inputs).1.sends.getLast? =
      some (addresses.sender_internal_address, .connectionClosed) := by
  induction inputs with
  | nil => exact absurd h (by simp [runLoop])
  | cons i rest ih =>
    by_cases hi : i = StreamRead.lenErr
    · subst hi; rfl
    · have hstep : (process decode addresses session_id i).2.sends = []
          ∧ (process decode addresses session_id i).1 ≠ ProcessResult.ok false := by
        cases i with
        | lenErr => exact absurd rfl hi
        | payloadErr len => exact ⟨rfl, by simp [process]⟩
        | frame len buf =>
            cases hdec : decode buf with
            | none => simp [process, hdec, Effects.empty]
            | some msg =>
                by_cases hr : msg.onward_route.addrs.isEmpty
                · simp [process, hdec, hr, Effects.empty]
                · simp [process, hdec, hr]
      obtain ⟨hs, hnf⟩ := hstep
      rcases hres : (process decode addresses session_id i).1 with b | _
      · cases b with
        | false => exact absurd hres hnf
        | true =>
            have h' : (runLoop decode addresses session_id rest).2 = true := by
              simpa [runLoop, hres] using h
            have tail := ih h'
            simp only [runLoop, hres, Effects.append]
            rw [hs]
            simpa using tail
      · have h' : (runLoop decode addresses session_id rest).2 = true := by
          simpa [runLoop, hres] using h
        have tail := ih h'
        simp only [runLoop, hres, Effects.append]
        rw [hs]
        simpa using tail

/-- Witness for C8 at a concrete input: a stream with one undecodable frame
followed by a length-read failure; the loop terminates and the last send is
the close notification to the sender's internal address. -/
theorem runLoop_termination_notifies_sender_witness :
    (runLoop decodeNone addrs0 none [.frame 0 [], .lenErr]).1.sends.getLast? =
      some (addrs0.sender_internal_address, .connectionClosed) :=
  runLoop_termination_notifies_sender decodeNone addrs0 none [.frame 0 [], .lenErr] rfl

/-! ## Theorems about credential retrieval -/

/-- C1: `get_credential_impl` never partially applies: whenever it returns an
error, the identity's credential is unchanged and `set_credential` was never
called; `set_credential` appears in the trace only when
`verify_self_credential` succeeded and the whole operation returned `Ok`,
and never before a `verify_self_credential` call. -/
theorem get_credential_impl_all_or_nothing (env : Env) (cred : Option Credential)
    (ow : Bool) :
    (∀ e : ApiError, (get_credential_impl env cred ow).1 = Except.error e →
        (get_credential_impl env cred ow).2.2 = cred
        ∧ (get_credential_impl env cred ow).2.1.any Action.isSetCredential = false)
    ∧ ((get_credential_impl env cred ow).2.1.any Action.isSetCredential = true →
        env.verifyRes = Except.ok () ∧ (get_credential_impl env cred ow).1 = Except.ok ())
    ∧ noSetBeforeVerify (get_credential_impl env cred ow).2.1 = true := by
  obtain ⟨aRes, tcp, scRes, cRes, vRes⟩ := env
  simp only [get_credential_impl]
  split
  · refine ⟨fun e _ => ⟨rfl, rfl⟩, fun hset => ?_, rfl⟩
    simp [Action.isSetCredential] at hset
  · cases aRes with
    | error e1 =>
        refine ⟨fun e _ => ⟨rfl, rfl⟩, fun hset => ?_, rfl⟩
        simp [Action.isSetCredential] at hset
    | ok auths =>
      cases auths with
      | nil =>
          refine ⟨fun e _ => ⟨rfl, rfl⟩, fun hset => ?_, rfl⟩
          simp [Action.isSetCredential] at hset
      | cons a rest =>
        cases tcp with
        | none =>
            refine ⟨fun e _ => ⟨rfl, rfl⟩, fun hset => ?_, rfl⟩
            simp [Action.isSetCredential, List.head?] at hset
        | some ts =>
          cases scRes with
          | error e2 =>
              refine ⟨fun e _ => ⟨rfl, rfl⟩, fun hset => ?_, rfl⟩
              simp [Action.isSetCredential, List.head?] at hset
          | ok sc =>
            cases cRes with
            | error e3 =>
                refine ⟨fun e _ => ⟨rfl, rfl⟩, fun hset => ?_, rfl⟩
                simp [Action.isSetCredential, List.head?] at hset
            | ok c =>
              cases vRes with
              | error e4 =>
                  refine ⟨fun e _ => ⟨rfl, rfl⟩, fun hset => ?_, rfl⟩
                  simp [Action.isSetCredential, List.head?] at hset
              | ok u =>
                  refine ⟨fun e h => ?_, fun _ => ⟨rfl, rfl⟩, rfl⟩
                  simp [List.head?] at h

/-- Witness for C1 at a concrete input: with a failing verification step and
`overwrite = true`, the operation errors, the pre-existing credential is
kept, and `set_credential` never appears in the trace. -/
theorem get_credential_impl_all_or_nothing_witness :
    (get_credential_impl envVerifyFail (some 7) true).2.2 = some 7
    ∧ (get_credential_impl envVerifyFail (some 7) true).2.1.any
        Action.isSetCredential = false :=
  (get_credential_impl_all_or_nothing envVerifyFail (some 7) true).1 (.propagated 3) rfl

/-- C9: on an identity that already holds a credential, `get_credential_impl`
with `overwrite = false` fails immediately with the "credential already
exists" error, with an empty action trace (no authority lookup, no
connection) and the credential state unchanged; with `overwrite = true` the
check is skipped — the result and the action trace are the same as for an
identity holding no credential at all. -/
theorem get_credential_impl_already_exists_guard (env : Env) (c : Credential) :
    get_credential_impl env (some c) false =
      (.error (.generic "credential already exists"), [], some c)
    ∧ (get_credential_impl env (some c) true).1 = (get_credential_impl env none true).1
    ∧ (get_credential_impl env (some c) true).2.1 =
        (get_credential_impl env none true).2.1 := by
  obtain ⟨aRes, tcp, scRes, cRes, vRes⟩ := env
  refine ⟨rfl, ?_, ?_⟩ <;>
    (cases aRes with
     | error e1 => rfl
     | ok auths =>
        cases auths with
        | nil => rfl
        | cons a rest =>
            cases tcp <;> cases scRes <;> cases cRes <;> cases vRes <;> rfl)

/-- C10: as soon as the run reaches secure-channel creation (authorities
configured, first-credential check passed, TCP session obtained), the allow
list passed as the channel trust policy holds exactly the identifier of the
first configured authority — a one-element list even when further authorities
are configured — while any credential verification performed in the same run
checks against the public identities of all configured authorities. -/
theorem get_credential_impl_allowed_first_verify_all (env : Env)
    (cred : Option Credential) (ow : Bool) (a : Authority)
    (rest : List Authority) (ts : TcpSession)
    (hA : env.authoritiesRes = Except.ok (a :: rest))
    (hT : env.tcpSession = some ts)
    (hC : (cred.isSome && !ow) = false) :
    Action.createSecureChannel [a.identity.identifier] ts.session
        ∈ (get_credential_impl env cred ow).2.1
    ∧ ∀ c iss, Action.verifyCredential c iss ∈ (get_credential_impl env cred ow).2.1 →
        iss = public_identities (a :: rest) := by
  simp only [get_credential_impl, hA, hT, hC, Bool.false_eq_true, if_false, List.head?]
  rcases hS : env.secureChannelRes with e2 | sc
  · refine ⟨by simp, ?_⟩
    intro c iss hmem
    simp at hmem
  · rcases hCl : env.clientRes with e3 | c2
    · refine ⟨by simp, ?_⟩
      intro c iss hmem
      simp at hmem
    · rcases hV : env.verifyRes with e4 | u
      · refine ⟨by simp, ?_⟩
        intro c iss hmem
        simp at hmem
        exact hmem.2
      · refine ⟨by simp, ?_⟩
        intro c iss hmem
        simp at hmem
        exact hmem.2

/-- Witness for C10 at a concrete input: two authorities are configured;
the allow list of the created secure channel holds only the first
authority's identifier, and the verification issuer set holds both
authorities' public identities. -/
theorem get_credential_impl_allowed_first_verify_all_witness :
    Action.createSecureChannel [authA.identity.identifier] tsX.session
        ∈ (get_credential_impl envTwoAuthorities none false).2.1
    ∧ ([⟨1⟩, ⟨2⟩] : List PublicIdentity) = public_identities [authA, authB] :=
  ⟨(get_credential_impl_allowed_first_verify_all envTwoAuthorities none false
      authA [authB] tsX rfl rfl rfl).1,
   (get_credential_impl_allowed_first_verify_all envTwoAuthorities none false
      authA [authB] tsX rfl rfl rfl).2 42 [⟨1⟩, ⟨2⟩] (by decide)⟩

end OckamModel
